import Mathlib

/-!
Verification of the Cart & Favorites State Manager of `src/main.js`.

Shallow embedding of the cart / favorites logic of the storefront script.
JavaScript numbers are modelled as integers (`ℤ`) — exact for every
numeric value the source and its usage scenarios manipulate (unit prices,
quantities, ±1 deltas) — JS strings as `String`, JS arrays as `List`, and
JS objects as structures whose fields mirror the object literals in the
source.  A JS function that ends without
a `return` statement returns `undefined`; this is made explicit by the
`JsReturn` type.
-/

namespace Loja

/-- A JavaScript value as produced by `JSON.parse`: `null`, a boolean, a
number (modelled as an integer), a string, or an array. -/
inductive JsValue : Type where
  | jnull : JsValue
  | jbool : Bool → JsValue
  | jnum : ℤ → JsValue
  | jstr : String → JsValue
  | jarr : List JsValue → JsValue

/-- JavaScript truthiness of a `JsValue` (as tested by `||`):
`null`, `false`, `0` and `""` are falsy; arrays are always truthy. -/
def truthy : JsValue → Bool
  | JsValue.jnull => false
  | JsValue.jbool b => b
  | JsValue.jnum q => !(q == 0)
  | JsValue.jstr s => !(s == "")
  | JsValue.jarr _ => true

/-- Embedding of the initialization at `src/main.js:51` and `:53`:
`JSON.parse(localStorage.getItem(key)) || []`.

* `stored` is the string held under the key (`none` when the key is absent;
  `localStorage.getItem` then returns `null`, and `JSON.parse(null)` parses
  the coerced string `"null"` to `null`, which `|| []` turns into `[]`).
* `parse` models host `JSON.parse` on strings; `Except.error` models the
  `SyntaxError` it raises on malformed input.  The source wraps the call in
  no `try`/`catch`, so a parse error propagates out of the load. -/
def loadCollection (parse : String → Except Unit JsValue) :
    Option String → Except Unit JsValue
  | none => Except.ok (JsValue.jarr [])
  | some s =>
    match parse s with
    | Except.error e => Except.error e
    | Except.ok v => Except.ok (if truthy v then v else JsValue.jarr [])

/-- Modelled from the host environment (not repository code): the behavior
of `JSON.parse` at the few concrete inputs used in witnesses below.
Real `JSON.parse` succeeds on `"null"` and `"[]"` and raises a
`SyntaxError` on the malformed input `"not json"`; the catch-all branch is
only ever applied to malformed inputs here. -/
def jsonParseAt : String → Except Unit JsValue
  | "null" => Except.ok JsValue.jnull
  | "[]" => Except.ok (JsValue.jarr [])
  | _ => Except.error ()

/-- A cart entry, mirroring the object literal pushed at `src/main.js:153`:
`{ id: cartItemId, name, price, image, quantity: 1, variant }`. -/
structure CartItem : Type where
  id : String
  name : String
  price : ℤ
  image : String
  quantity : ℤ
  variant : Option String
deriving DecidableEq, Repr

/-- A favorites entry, mirroring the object literal pushed at
`src/main.js:259`: `{ id, name, price, image }`. -/
structure FavItem : Type where
  id : String
  name : String
  price : ℤ
  image : String
deriving DecidableEq, Repr

/-- The value a JS function call evaluates to: `undefined` when the body
ends without `return`, or a boolean. -/
inductive JsReturn : Type where
  | undefined : JsReturn
  | boolean : Bool → JsReturn
deriving DecidableEq, Repr

/-- Whitespace as matched by the JavaScript regex class `\s`. -/
def isJsWhitespace (c : Char) : Bool :=
  c = ' ' || c = '\t' || c = '\n' || c = '\r' || c = '\x0b' || c = '\x0c' ||
  c = '\u00A0' || c = '\u1680' || ('\u2000' ≤ c && c ≤ '\u200A') ||
  c = '\u2028' || c = '\u2029' || c = '\u202F' || c = '\u205F' ||
  c = '\u3000' || c = '\uFEFF'

/-- Model of `variant.replace(/\s/g, '-')` (src/main.js:147): every
whitespace character of the string replaced by a dash. -/
def jsReplaceWs (s : String) : String :=
  String.mk (s.data.map (fun c => if isJsWhitespace c then '-' else c))

/-- The composite cart key computed at `src/main.js:147`:
``variant ? `${id}-${variant.replace(/\s/g, '-')}` : id``. -/
def cartItemId (id : String) (variant : Option String) : String :=
  match variant with
  | some v => id ++ "-" ++ jsReplaceWs v
  | none => id

/-- In-place update of the first element of a list satisfying `p`, the
effect of mutating the object reference returned by `Array.prototype.find`. -/
def updateFirst (p : α → Bool) (f : α → α) : List α → List α
  | [] => []
  | a :: l => if p a then f a :: l else a :: updateFirst p f l

/-- Removal of the first element of a list satisfying `p`, the effect of
`splice(i, 1)` at the index returned by `findIndex`. -/
def removeFirst (p : α → Bool) : List α → List α
  | [] => []
  | a :: l => if p a then l else a :: removeFirst p l

/-- Model of `Array.prototype.findIndex`, with `none` standing for the
sentinel `-1`. -/
def jsFindIndex (p : α → Bool) : List α → Option Nat
  | [] => none
  | a :: l => if p a then some 0 else (jsFindIndex p l).map (· + 1)

/-- Embeds `addItemToCart` (src/main.js:146-156), restricted to its state effect
on the cart collection.  `cart.find` returns a reference to the first
matching entry and `existingItem.quantity++` mutates it in place, modelled
by `updateFirst`; otherwise a fresh entry with quantity 1 is pushed. -/
def addItemToCart (cart : List CartItem) (id name : String) (price : ℤ)
    (image : String) (variant : Option String) : List CartItem :=
  let key := cartItemId id variant
  match cart.find? (fun item => item.id = key) with
  | some _ =>
    updateFirst (fun item => item.id = key)
      (fun item => { item with quantity := item.quantity + 1 }) cart
  | none =>
    cart ++ [{ id := key, name := name, price := price, image := image,
               quantity := 1, variant := variant }]

/-- Embeds `updateItemQuantity` (src/main.js:164-174), restricted to its state
effect.  The first entry matching `id` is mutated by `+= change`; if its
new quantity is ≤ 0 the whole cart is re-filtered, dropping every entry
whose id equals `id`.  Absent id: early return, cart untouched. -/
def updateItemQuantity (cart : List CartItem) (id : String) (change : ℤ) :
    List CartItem :=
  match cart.find? (fun item => item.id = id) with
  | none => cart
  | some item =>
    let newQty := item.quantity + change
    let cart1 := updateFirst (fun it => it.id = id)
      (fun it => { it with quantity := newQty }) cart
    if newQty ≤ 0 then cart1.filter (fun cartItem => !(cartItem.id = id))
    else cart1

/-- The subtotal computed inside `renderSubtotal` (src/main.js:221):
`cart.reduce((sum, item) => sum + (item.price * item.quantity), 0)`. -/
def computeSubtotal (cart : List CartItem) : ℤ :=
  cart.foldl (fun sum item => sum + item.price * item.quantity) 0

/-- Embeds `toggleFavorite` (src/main.js:251-262), restricted to its state effect
and its return value.  `findIndex` + `splice(existingIndex, 1)` removes the
first match; otherwise the item is pushed.  The body ends without a
`return` statement, so the call evaluates to `undefined`. -/
def toggleFavorite (favorites : List FavItem) (id name : String) (price : ℤ)
    (image : String) : List FavItem × JsReturn :=
  match jsFindIndex (fun item => item.id = id) favorites with
  | some existingIndex => (favorites.eraseIdx existingIndex, JsReturn.undefined)
  | none =>
    (favorites ++ [{ id := id, name := name, price := price, image := image }],
     JsReturn.undefined)

/-- The arguments of one `addItemToCart` call. -/
structure AddCall : Type where
  id : String
  name : String
  price : ℤ
  image : String
  variant : Option String
deriving DecidableEq, Repr

/-- Folding a sequence of `addItemToCart` calls over the empty cart. -/
def runAdds (calls : List AddCall) : List CartItem :=
  calls.foldl (fun c k => addItemToCart c k.id k.name k.price k.image k.variant) []

/-- Folding a sequence of `updateItemQuantity` calls over a cart. -/
def runUpdates (cart : List CartItem) (calls : List (String × ℤ)) :
    List CartItem :=
  calls.foldl (fun c k => updateItemQuantity c k.1 k.2) cart


/-! ## Helper lemmas about the list operations used by the embedding -/

theorem length_updateFirst (p : α → Bool) (f : α → α) :
    ∀ l : List α, (updateFirst p f l).length = l.length
  | [] => rfl
  | a :: l => by
    by_cases h : p a <;> simp [updateFirst, h, length_updateFirst p f l]

theorem mem_updateFirst {p : α → Bool} {f : α → α} {x : α} :
    ∀ {l : List α}, x ∈ updateFirst p f l → x ∈ l ∨ ∃ y ∈ l, p y = true ∧ x = f y
  | [], h => absurd h (by simp [updateFirst])
  | a :: l, h => by
    by_cases ha : p a
    · rw [updateFirst, if_pos ha] at h
      rcases List.mem_cons.mp h with h | h
      · exact Or.inr ⟨a, List.mem_cons_self a l, ha, h⟩
      · exact Or.inl (List.mem_cons_of_mem a h)
    · rw [updateFirst, if_neg ha] at h
      rcases List.mem_cons.mp h with h | h
      · exact Or.inl (h ▸ List.mem_cons_self a l)
      · rcases mem_updateFirst h with h | ⟨y, hy, hpy, hxy⟩
        · exact Or.inl (List.mem_cons_of_mem a h)
        · exact Or.inr ⟨y, List.mem_cons_of_mem a hy, hpy, hxy⟩

theorem map_updateFirst {p : α → Bool} {f : α → α} (g : α → β)
    (hg : ∀ x, g (f x) = g x) :
    ∀ l : List α, (updateFirst p f l).map g = l.map g
  | [] => rfl
  | a :: l => by
    by_cases h : p a <;>
      simp [updateFirst, h, hg, map_updateFirst g hg l]

theorem find?_updateFirst {p : α → Bool} {f : α → α}
    (hf : ∀ x, p (f x) = p x) :
    ∀ {l : List α} {a : α}, l.find? p = some a →
      (updateFirst p f l).find? p = some (f a)
  | [], a, h => by simp at h
  | b :: l, a, h => by
    by_cases hb : p b
    · rw [List.find?_cons_of_pos _ hb] at h
      rw [updateFirst, if_pos hb, List.find?_cons_of_pos _ (by rw [hf]; exact hb)]
      rw [Option.some_inj] at h
      rw [h]
    · rw [List.find?_cons_of_neg _ hb] at h
      rw [updateFirst, if_neg hb, List.find?_cons_of_neg _ hb]
      exact find?_updateFirst hf h

theorem mem_of_mem_removeFirst {p : α → Bool} {x : α} :
    ∀ {l : List α}, x ∈ removeFirst p l → x ∈ l
  | [], h => absurd h (by simp [removeFirst])
  | a :: l, h => by
    by_cases ha : p a
    · rw [removeFirst, if_pos ha] at h
      exact List.mem_cons_of_mem a h
    · rw [removeFirst, if_neg ha] at h
      rcases List.mem_cons.mp h with h | h
      · exact h ▸ List.mem_cons_self a l
      · exact List.mem_cons_of_mem a (mem_of_mem_removeFirst h)

theorem mem_removeFirst_of_neg {p : α → Bool} {x : α} (hx : p x = false) :
    ∀ {l : List α}, x ∈ l → x ∈ removeFirst p l
  | [], h => absurd h (by simp)
  | a :: l, h => by
    by_cases ha : p a
    · rw [removeFirst, if_pos ha]
      rcases List.mem_cons.mp h with h | h
      · rw [h] at hx; rw [ha] at hx; exact absurd hx (by simp)
      · exact h
    · rw [removeFirst, if_neg ha]
      rcases List.mem_cons.mp h with h | h
      · exact h ▸ List.mem_cons_self a _
      · exact List.mem_cons_of_mem a (mem_removeFirst_of_neg hx h)

theorem removeFirst_append_left {p : α → Bool} :
    ∀ {l : List α}, (∀ x ∈ l, ¬ p x = true) →
      ∀ l₂ : List α, removeFirst p (l ++ l₂) = l ++ removeFirst p l₂
  | [], _, l₂ => rfl
  | a :: l, h, l₂ => by
    have ha : ¬ p a = true := h a (List.mem_cons_self a l)
    rw [List.cons_append, removeFirst, if_neg ha,
      removeFirst_append_left (fun x hx => h x (List.mem_cons_of_mem a hx)) l₂,
      List.cons_append]

theorem removeFirst_idfree [DecidableEq β] {g : α → β} {b : β} :
    ∀ {l : List α}, (l.map g).Nodup →
      ∀ x ∈ removeFirst (fun y => g y = b) l, ¬ g x = b
  | [], _, x, hx => absurd hx (by simp [removeFirst])
  | a :: l, hnd, x, hx => by
    rw [List.map_cons, List.nodup_cons] at hnd
    by_cases ha : g a = b
    · rw [removeFirst, if_pos (decide_eq_true ha)] at hx
      intro hgx
      exact hnd.1 (ha ▸ hgx ▸ List.mem_map_of_mem g hx)
    · rw [removeFirst, if_neg (by simpa using ha)] at hx
      rcases List.mem_cons.mp hx with h | h
      · exact h ▸ ha
      · exact removeFirst_idfree hnd.2 x h

theorem jsFindIndex_eq_none_iff {p : α → Bool} :
    ∀ {l : List α}, jsFindIndex p l = none ↔ ∀ x ∈ l, ¬ p x = true
  | [] => by simp [jsFindIndex]
  | a :: l => by
    by_cases ha : p a
    · simp [jsFindIndex, ha]
    · simp [jsFindIndex, ha, jsFindIndex_eq_none_iff (l := l)]

theorem eraseIdx_jsFindIndex {p : α → Bool} :
    ∀ {l : List α} {i : ℕ}, jsFindIndex p l = some i →
      l.eraseIdx i = removeFirst p l
  | [], i, h => by simp [jsFindIndex] at h
  | a :: l, i, h => by
    by_cases ha : p a
    · rw [jsFindIndex, if_pos ha, Option.some_inj] at h
      rw [← h, removeFirst, if_pos ha, List.eraseIdx]
    · rw [jsFindIndex, if_neg ha] at h
      rcases Option.map_eq_some'.mp h with ⟨j, hj, hij⟩
      rw [← hij, removeFirst, if_neg ha, List.eraseIdx,
        eraseIdx_jsFindIndex hj]

theorem jsFindIndex_isSome_of_mem {p : α → Bool} {x : α} :
    ∀ {l : List α}, x ∈ l → p x = true → ∃ i, jsFindIndex p l = some i
  | [], h, _ => absurd h (by simp)
  | a :: l, h, hx => by
    by_cases ha : p a
    · exact ⟨0, by rw [jsFindIndex, if_pos ha]⟩
    · rcases List.mem_cons.mp h with h | h
      · rw [← h] at ha; exact absurd hx ha
      · rcases jsFindIndex_isSome_of_mem h hx with ⟨j, hj⟩
        exact ⟨j + 1, by rw [jsFindIndex, if_neg ha, hj, Option.map_some']⟩

theorem updateFirst_getElem {p : α → Bool} (f : α → α) :
    ∀ {l : List α} {i : ℕ}, jsFindIndex p l = some i →
      ∃ a, l[i]? = some a ∧ p a = true ∧
        (updateFirst p f l)[i]? = some (f a) ∧
        ∀ j : ℕ, j ≠ i → (updateFirst p f l)[j]? = l[j]?
  | [], i, h => by simp [jsFindIndex] at h
  | b :: l, i, h => by
    by_cases hb : p b
    · rw [jsFindIndex, if_pos hb, Option.some_inj] at h
      refine ⟨b, ?_, hb, ?_, ?_⟩
      · rw [← h]; exact List.getElem?_cons_zero
      · rw [updateFirst, if_pos hb, ← h]; exact List.getElem?_cons_zero
      · intro j hj
        rw [updateFirst, if_pos hb]
        cases j with
        | zero => exact absurd h hj
        | succ k => rw [List.getElem?_cons_succ, List.getElem?_cons_succ]
    · rw [jsFindIndex, if_neg hb] at h
      rcases Option.map_eq_some'.mp h with ⟨j, hj, hij⟩
      rcases updateFirst_getElem f hj with ⟨a, ha, hpa, hua, hother⟩
      refine ⟨a, ?_, hpa, ?_, ?_⟩
      · rw [← hij, List.getElem?_cons_succ]; exact ha
      · rw [updateFirst, if_neg hb, ← hij, List.getElem?_cons_succ]; exact hua
      · intro k hk
        rw [updateFirst, if_neg hb]
        cases k with
        | zero => rw [List.getElem?_cons_zero, List.getElem?_cons_zero]
        | succ m =>
          rw [List.getElem?_cons_succ, List.getElem?_cons_succ]
          exact hother m (fun hm => hk (by rw [hm, hij]))

theorem toggleFavorite_fst (favs : List FavItem) (id name : String) (price : ℤ)
    (image : String) :
    (toggleFavorite favs id name price image).1 =
      if favs.any (fun x => x.id = id) then
        removeFirst (fun x => x.id = id) favs
      else favs ++ [⟨id, name, price, image⟩] := by
  rcases h : jsFindIndex (fun x => x.id = id) favs with _ | i
  · rw [toggleFavorite, h]
    have hall := jsFindIndex_eq_none_iff.mp h
    have hany : ¬ (favs.any (fun x => x.id = id) = true) := by
      rw [List.any_eq_true]
      rintro ⟨x, hx, hpx⟩
      exact hall x hx hpx
    rw [if_neg hany]
  · rw [toggleFavorite, h]
    have hany : favs.any (fun x => x.id = id) = true := by
      by_contra hc
      have hall : ∀ x ∈ favs, ¬ (fun x : FavItem => decide (x.id = id)) x = true :=
        fun x hx hpx => hc (List.any_eq_true.mpr ⟨x, hx, hpx⟩)
      rw [← jsFindIndex_eq_none_iff] at hall
      rw [hall] at h
      exact Option.noConfusion h
    rw [if_pos hany]
    exact eraseIdx_jsFindIndex h

theorem toggleFavorite_snd (favs : List FavItem) (id name : String) (price : ℤ)
    (image : String) :
    (toggleFavorite favs id name price image).2 = JsReturn.undefined := by
  rcases h : jsFindIndex (fun x : FavItem => x.id = id) favs with _ | i <;>
    rw [toggleFavorite, h]

theorem foldl_add_eq_sum (g : CartItem → ℤ) :
    ∀ (l : List CartItem) (a : ℤ),
      l.foldl (fun s it => s + g it) a = a + (l.map g).sum
  | [], a => by simp
  | b :: l, a => by
    rw [List.foldl_cons, foldl_add_eq_sum g l (a + g b), List.map_cons,
      List.sum_cons, add_assoc]


/-! ## Claim theorems -/

/-- Claim C5: the cart key computation is the deterministic function that
returns the product id unchanged when the variant is null/absent, and
otherwise the id, a separator, and the variant text with every whitespace
character replaced by the separator character; variant "Tamanho: 42" on
product "p1" yields key "p1-Tamanho:-42" and variant "Tamanho: 43" yields
"p1-Tamanho:-43", so the two scenario-4 adds create two distinct entries.
(Determinism is immediate: the embedding is a pure function.) -/
theorem cartItemId_spec :
    (∀ id : String, cartItemId id none = id) ∧
    (∀ id v : String, cartItemId id (some v) =
      id ++ "-" ++
        String.mk (v.data.map (fun c => if isJsWhitespace c then '-' else c))) ∧
    cartItemId "p1" (some "Tamanho: 42") = "p1-Tamanho:-42" ∧
    cartItemId "p1" (some "Tamanho: 43") = "p1-Tamanho:-43" ∧
    cartItemId "p1" (some "Tamanho: 42") ≠ cartItemId "p1" (some "Tamanho: 43") ∧
    runAdds [⟨"p1", "Shoe", 100, "img", some "Tamanho: 42"⟩,
             ⟨"p1", "Shoe", 100, "img", some "Tamanho: 43"⟩] =
      [⟨"p1-Tamanho:-42", "Shoe", 100, "img", 1, some "Tamanho: 42"⟩,
       ⟨"p1-Tamanho:-43", "Shoe", 100, "img", 1, some "Tamanho: 43"⟩] :=
  ⟨fun _ => rfl, fun _ _ => rfl, by decide, by decide, by decide, by decide⟩

/-- Claim C6: for every cart collection the computed subtotal equals the
sum over all items of price * quantity, and for the empty cart it is 0. -/
theorem computeSubtotal_spec :
    (∀ cart : List CartItem,
      computeSubtotal cart = (cart.map (fun it => it.price * it.quantity)).sum) ∧
    computeSubtotal [] = 0 :=
  ⟨fun cart => by
    rw [computeSubtotal, foldl_add_eq_sum (fun it => it.price * it.quantity) cart 0,
      zero_add], rfl⟩

/-- Claim C8: for every cart and id matching no item's key,
`updateItemQuantity` is a no-op for every delta: it raises nothing and
returns the cart exactly unchanged. -/
theorem updateItemQuantity_absent (cart : List CartItem) (id : String)
    (change : ℤ) (h : ∀ it ∈ cart, it.id ≠ id) :
    updateItemQuantity cart id change = cart := by
  have hf : cart.find? (fun item => item.id = id) = none :=
    List.find?_eq_none.mpr (fun x hx => by simpa using h x hx)
  rw [updateItemQuantity, hf]

/-- Witness for C8 at a concrete input: a one-item cart keyed "a" is left
unchanged by an update aimed at the absent key "b". -/
theorem updateItemQuantity_absent_witness :
    (∀ it ∈ [({ id := "a", name := "A", price := 10, image := "i",
                quantity := 1, variant := none } : CartItem)], it.id ≠ "b") ∧
    updateItemQuantity
        [{ id := "a", name := "A", price := 10, image := "i",
           quantity := 1, variant := none }] "b" (-1) =
      [{ id := "a", name := "A", price := 10, image := "i",
         quantity := 1, variant := none }] :=
  ⟨by decide,
   updateItemQuantity_absent
     [{ id := "a", name := "A", price := 10, image := "i",
        quantity := 1, variant := none }] "b" (-1) (by decide)⟩


/-- Claim C1 (counterexample): the store-load does raise on malformed
stored content.  `JSON.parse` raises a SyntaxError on the malformed stored
string "not json" (modelled by `jsonParseAt`), and the load at init wraps
it in no try/catch, so the error propagates instead of degrading to the
empty sequence. -/
theorem loadCollection_raises_on_malformed :
    loadCollection jsonParseAt (some "not json") = Except.error () ∧
    loadCollection jsonParseAt (some "not json") ≠ Except.ok (JsValue.jarr []) :=
  ⟨rfl, fun h => Except.noConfusion h⟩

/-- Claim C1 (amended): the store-load never raises on a missing key (an
absent key loads the empty sequence, since `JSON.parse(null)` yields
`null` and `|| []` replaces every falsy parse result), and a stored string
parsing to a falsy value also degrades to the empty sequence; but a
malformed stored string makes `JSON.parse` raise and the load propagates
that error instead of degrading to the empty sequence. -/
theorem loadCollection_spec (parse : String → Except Unit JsValue) :
    loadCollection parse none = Except.ok (JsValue.jarr []) ∧
    (∀ s, parse s = Except.error () →
      loadCollection parse (some s) = Except.error ()) ∧
    (∀ s v, parse s = Except.ok v → truthy v = false →
      loadCollection parse (some s) = Except.ok (JsValue.jarr [])) ∧
    (∀ s v, parse s = Except.ok v → truthy v = true →
      loadCollection parse (some s) = Except.ok v) := by
  refine ⟨rfl, fun s hs => ?_, fun s v hv ht => ?_, fun s v hv ht => ?_⟩
  · simp only [loadCollection, hs]
  · simp only [loadCollection, hv]
    rw [ht]
    simp
  · simp only [loadCollection, hv]
    rw [ht]
    simp

/-- Witness for C1 (amended) at concrete inputs: an absent key and the
parsable-but-falsy "null" both load the empty sequence, a parsable truthy
"[]" loads the parsed array, and the malformed "oops" propagates the
parse error. -/
theorem loadCollection_spec_witness :
    loadCollection jsonParseAt none = Except.ok (JsValue.jarr []) ∧
    jsonParseAt "oops" = Except.error () ∧
    loadCollection jsonParseAt (some "oops") = Except.error () ∧
    jsonParseAt "null" = Except.ok JsValue.jnull ∧
    truthy JsValue.jnull = false ∧
    loadCollection jsonParseAt (some "null") = Except.ok (JsValue.jarr []) ∧
    jsonParseAt "[]" = Except.ok (JsValue.jarr []) ∧
    truthy (JsValue.jarr []) = true ∧
    loadCollection jsonParseAt (some "[]") = Except.ok (JsValue.jarr []) :=
  ⟨(loadCollection_spec jsonParseAt).1, rfl,
   (loadCollection_spec jsonParseAt).2.1 "oops" rfl, rfl, rfl,
   (loadCollection_spec jsonParseAt).2.2.1 "null" JsValue.jnull rfl rfl, rfl, rfl,
   (loadCollection_spec jsonParseAt).2.2.2 "[]" (JsValue.jarr []) rfl rfl⟩

/-- Claim C2 (counterexample): a toggle that adds "p1" to the empty
favorites list does not return the new membership boolean `true`; the
function body has no return statement, so the call evaluates to
`undefined`. -/
theorem toggleFavorite_no_return :
    (toggleFavorite [] "p1" "Shoe" 100 "img").2 = JsReturn.undefined ∧
    JsReturn.undefined ≠ JsReturn.boolean true :=
  ⟨rfl, by decide⟩

/-- Claim C2 (amended): `toggleFavorite` appends the item when its id is
absent and removes the first matching entry when present, but every call
returns `undefined` (the body has no return statement), never the new
membership boolean. -/
theorem toggleFavorite_spec (favs : List FavItem) (id name : String)
    (price : ℤ) (image : String) :
    (toggleFavorite favs id name price image).2 = JsReturn.undefined ∧
    ((∀ x ∈ favs, x.id ≠ id) →
      (toggleFavorite favs id name price image).1 =
        favs ++ [{ id := id, name := name, price := price, image := image }]) ∧
    ((∃ x ∈ favs, x.id = id) →
      (toggleFavorite favs id name price image).1 =
        removeFirst (fun x => x.id = id) favs) := by
  refine ⟨toggleFavorite_snd favs id name price image, fun h => ?_, ?_⟩
  · rw [toggleFavorite_fst, if_neg ?_]
    rw [List.any_eq_true]
    rintro ⟨x, hx, hpx⟩
    exact h x hx (by simpa using hpx)
  · rintro ⟨x, hx, hpx⟩
    rw [toggleFavorite_fst,
      if_pos (List.any_eq_true.mpr ⟨x, hx, by simpa using hpx⟩)]

/-- Witness for C2 (amended) at concrete inputs: on the empty list the
toggle of "p1" appends the item, on a one-item list holding "p1" it
removes it, and both calls return `undefined`. -/
theorem toggleFavorite_spec_witness :
    (toggleFavorite [] "p1" "Shoe" 100 "img").2 = JsReturn.undefined ∧
    (∀ x ∈ ([] : List FavItem), x.id ≠ "p1") ∧
    (toggleFavorite [] "p1" "Shoe" 100 "img").1 =
      [{ id := "p1", name := "Shoe", price := 100, image := "img" }] ∧
    (∃ x ∈ [({ id := "p1", name := "Shoe", price := 100,
               image := "img" } : FavItem)], x.id = "p1") ∧
    (toggleFavorite [{ id := "p1", name := "Shoe", price := 100,
                       image := "img" }] "p1" "Shoe" 100 "img").1 =
      removeFirst (fun x => x.id = "p1")
        [{ id := "p1", name := "Shoe", price := 100, image := "img" }] :=
  ⟨(toggleFavorite_spec [] "p1" "Shoe" 100 "img").1, by decide,
   (toggleFavorite_spec [] "p1" "Shoe" 100 "img").2.1 (by decide), by decide,
   (toggleFavorite_spec [{ id := "p1", name := "Shoe", price := 100,
                           image := "img" }] "p1" "Shoe" 100 "img").2.2
     (by decide)⟩


/-- One `updateItemQuantity` call preserves positivity of all quantities:
the touched entry either keeps a positive new quantity or is filtered out
together with every entry of the same id, and untouched entries keep their
old quantity. -/
theorem updateItemQuantity_pos (cart : List CartItem) (id : String)
    (change : ℤ) (h : ∀ it ∈ cart, 0 < it.quantity) :
    ∀ it ∈ updateItemQuantity cart id change, 0 < it.quantity := by
  intro x hx
  rcases hfind : cart.find? (fun item => item.id = id) with _ | item
  · rw [updateItemQuantity, hfind] at hx
    exact h x hx
  · simp only [updateItemQuantity, hfind] at hx
    by_cases hq : item.quantity + change ≤ 0
    · rw [if_pos hq] at hx
      rcases mem_updateFirst (List.mem_filter.mp hx).1 with hmem | ⟨y, _, hpy, hxy⟩
      · exact h x hmem
      · have hsurv := (List.mem_filter.mp hx).2
        rw [hxy] at hsurv
        have hyid : y.id = id := by simpa using hpy
        simp [hyid] at hsurv
    · rw [if_neg hq] at hx
      rcases mem_updateFirst hx with hmem | ⟨y, _, _, hxy⟩
      · exact h x hmem
      · rw [hxy]
        simpa using lt_of_not_le hq

/-- Positivity of all quantities is preserved along any sequence of
`updateItemQuantity` calls. -/
theorem runUpdates_pos : ∀ (calls : List (String × ℤ)) (cart : List CartItem),
    (∀ it ∈ cart, 0 < it.quantity) →
    ∀ it ∈ runUpdates cart calls, 0 < it.quantity
  | [], _, h => h
  | c :: calls, cart, h =>
    runUpdates_pos calls (updateItemQuantity cart c.1 c.2)
      (updateItemQuantity_pos cart c.1 c.2 h)

/-- Claim C4: for every sequence of `updateItemQuantity` calls on a cart
whose items all have quantity ≥ 1, no item with quantity ≤ 0 remains in
the collection after a call returns: a delta driving a quantity to ≤ 0
removes the item rather than retaining it at zero. -/
theorem cart_quantity_floor (cart : List CartItem)
    (h : ∀ it ∈ cart, 1 ≤ it.quantity) (calls : List (String × ℤ)) :
    ∀ it ∈ runUpdates cart calls, ¬ it.quantity ≤ 0 :=
  fun it hit =>
    not_le_of_lt
      (runUpdates_pos calls cart
        (fun x hx => lt_of_lt_of_le zero_lt_one (h x hx)) it hit)

/-- Witness for C4 at a concrete input: starting from a one-item cart with
quantity 1, the calls +1 on "a", -1 on "a" and -1 on the absent "b" leave
the entry at quantity 1, which is not ≤ 0. -/
theorem cart_quantity_floor_witness :
    (∀ it ∈ [({ id := "a", name := "A", price := 10, image := "i",
                quantity := 1, variant := none } : CartItem)],
      1 ≤ it.quantity) ∧
    ({ id := "a", name := "A", price := 10, image := "i",
       quantity := 1, variant := none } : CartItem) ∈
      runUpdates
        [{ id := "a", name := "A", price := 10, image := "i",
           quantity := 1, variant := none }]
        [("a", 1), ("a", -1), ("b", -1)] ∧
    ¬ (({ id := "a", name := "A", price := 10, image := "i",
          quantity := 1, variant := none } : CartItem).quantity ≤ 0) :=
  ⟨by decide,
   by
     rw [show runUpdates
         [{ id := "a", name := "A", price := 10, image := "i",
            quantity := 1, variant := none }]
         [("a", 1), ("a", -1), ("b", -1)] =
       [{ id := "a", name := "A", price := 10, image := "i",
          quantity := 1, variant := none }] from by decide]
     exact List.mem_singleton.mpr rfl,
   cart_quantity_floor
     [{ id := "a", name := "A", price := 10, image := "i",
        quantity := 1, variant := none }]
     (by decide) [("a", 1), ("a", -1), ("b", -1)]
     { id := "a", name := "A", price := 10, image := "i",
       quantity := 1, variant := none }
     (by
       rw [show runUpdates
           [{ id := "a", name := "A", price := 10, image := "i",
              quantity := 1, variant := none }]
           [("a", 1), ("a", -1), ("b", -1)] =
         [{ id := "a", name := "A", price := 10, image := "i",
            quantity := 1, variant := none }] from by decide]
       exact List.mem_singleton.mpr rfl)⟩

/-- Claim C10: when `updateItemQuantity` drives the matched item's
quantity to ≤ 0, the re-filter deletes every entry of the cart whose id
equals the given id — even duplicate entries that violate the uniqueness
invariant — so none remains after the call. -/
theorem updateItemQuantity_removes_all (cart : List CartItem) (id : String)
    (change : ℤ) (item : CartItem)
    (hfind : cart.find? (fun it => it.id = id) = some item)
    (hneg : item.quantity + change ≤ 0) :
    ∀ x ∈ updateItemQuantity cart id change, ¬ x.id = id := by
  intro x hx
  simp only [updateItemQuantity, hfind] at hx
  rw [if_pos hneg] at hx
  have := (List.mem_filter.mp hx).2
  simpa using this

/-- Witness for C10 at a concrete input: a cart holding two duplicate
entries with id "a"; the -1 update drains the first one, and neither entry
remains afterwards (here the id "a" of the second duplicate entry). -/
theorem updateItemQuantity_removes_all_witness :
    ([({ id := "a", name := "A", price := 10, image := "i",
         quantity := 1, variant := none } : CartItem),
      { id := "a", name := "A2", price := 20, image := "j",
        quantity := 5, variant := none }].find?
        (fun it => it.id = "a") =
      some { id := "a", name := "A", price := 10, image := "i",
             quantity := 1, variant := none }) ∧
    (({ id := "a", name := "A", price := 10, image := "i",
        quantity := 1, variant := none } : CartItem).quantity + (-1) ≤ 0) ∧
    updateItemQuantity
        [{ id := "a", name := "A", price := 10, image := "i",
           quantity := 1, variant := none },
         { id := "a", name := "A2", price := 20, image := "j",
           quantity := 5, variant := none }] "a" (-1) = [] ∧
    (∀ x ∈ updateItemQuantity
        [({ id := "a", name := "A", price := 10, image := "i",
            quantity := 1, variant := none } : CartItem),
         { id := "a", name := "A2", price := 20, image := "j",
           quantity := 5, variant := none }] "a" (-1), ¬ x.id = "a") :=
  ⟨by decide, by decide, by decide,
   updateItemQuantity_removes_all
     [{ id := "a", name := "A", price := 10, image := "i",
        quantity := 1, variant := none },
      { id := "a", name := "A2", price := 20, image := "j",
        quantity := 5, variant := none }] "a" (-1)
     { id := "a", name := "A", price := 10, image := "i",
       quantity := 1, variant := none } (by decide) (by decide)⟩


/-- One `addItemToCart` call preserves the uniqueness of cart keys: the
increment branch keeps the id sequence unchanged, and the push branch
appends a key that `find?` certified absent. -/
theorem addItemToCart_nodup (cart : List CartItem) (id name : String)
    (price : ℤ) (image : String) (variant : Option String)
    (h : (cart.map (fun it => it.id)).Nodup) :
    ((addItemToCart cart id name price image variant).map
      (fun it => it.id)).Nodup := by
  rcases hfind : cart.find? (fun item => item.id = cartItemId id variant)
    with _ | item
  · simp only [addItemToCart, hfind]
    rw [List.map_append, List.nodup_append]
    refine ⟨h, List.nodup_singleton _, fun a ha hb => ?_⟩
    rcases List.mem_map.mp ha with ⟨y, hy, hya⟩
    have hnot := List.find?_eq_none.mp hfind y hy
    rw [List.map_singleton, List.mem_singleton] at hb
    rw [hb] at hya
    exact hnot (by simpa using hya)
  · simp only [addItemToCart, hfind]
    rw [map_updateFirst
      (f := fun item : CartItem => { item with quantity := item.quantity + 1 })
      (fun it : CartItem => it.id) (fun x => rfl)]
    exact h

/-- Key uniqueness is preserved along any sequence of `addItemToCart`
calls. -/
theorem foldl_add_nodup : ∀ (calls : List AddCall) (cart : List CartItem),
    (cart.map (fun it => it.id)).Nodup →
    ((calls.foldl
        (fun c k => addItemToCart c k.id k.name k.price k.image k.variant)
        cart).map (fun it => it.id)).Nodup
  | [], _, h => h
  | c :: calls, cart, h =>
    foldl_add_nodup calls (addItemToCart cart c.id c.name c.price c.image c.variant)
      (addItemToCart_nodup cart c.id c.name c.price c.image c.variant h)

/-- Claim C3: any sequence of `addItemToCart` calls from the empty cart
yields a cart with at most one entry per computed key; an add whose key is
absent appends a fresh entry with quantity 1, and an add whose key is
present leaves the length unchanged and increments the first matching
entry's quantity by 1 instead of appending a duplicate. -/
theorem addItem_uniqueness :
    (∀ calls : List AddCall, ((runAdds calls).map (fun it => it.id)).Nodup) ∧
    (∀ (cart : List CartItem) (id name : String) (price : ℤ) (image : String)
        (variant : Option String),
      (cart.find? (fun it => it.id = cartItemId id variant) = none →
        addItemToCart cart id name price image variant =
          cart ++ [{ id := cartItemId id variant, name := name, price := price,
                     image := image, quantity := 1, variant := variant }]) ∧
      (∀ item, cart.find? (fun it => it.id = cartItemId id variant) = some item →
        (addItemToCart cart id name price image variant).length = cart.length ∧
        (addItemToCart cart id name price image variant).find?
            (fun it => it.id = cartItemId id variant) =
          some { item with quantity := item.quantity + 1 })) := by
  refine ⟨fun calls => foldl_add_nodup calls [] List.nodup_nil,
    fun cart id name price image variant =>
      ⟨fun hnone => ?_, fun item hsome => ⟨?_, ?_⟩⟩⟩
  · simp only [addItemToCart, hnone]
  · simp only [addItemToCart, hsome]
    exact length_updateFirst _ _ cart
  · simp only [addItemToCart, hsome]
    exact find?_updateFirst
      (p := fun it : CartItem => decide (it.id = cartItemId id variant))
      (f := fun item : CartItem => { item with quantity := item.quantity + 1 })
      (fun x => rfl) hsome

/-- Witness for C3 at concrete inputs: two same-key adds of "p1" followed
by an add of "p2", starting from the empty cart, keep the key sequence
duplicate-free; the first "p1" add appends with quantity 1, and re-adding
"p1" on the resulting one-item cart keeps length 1 and bumps the quantity
to 2. -/
theorem addItem_uniqueness_witness :
    ((runAdds [⟨"p1", "Shoe", 100, "img", none⟩,
               ⟨"p1", "Shoe", 100, "img", none⟩,
               ⟨"p2", "Watch", 200, "img2", none⟩]).map
      (fun it => it.id)).Nodup ∧
    (([] : List CartItem).find? (fun it => it.id = cartItemId "p1" none) = none) ∧
    addItemToCart [] "p1" "Shoe" 100 "img" none =
      [{ id := "p1", name := "Shoe", price := 100, image := "img",
         quantity := 1, variant := none }] ∧
    ([({ id := "p1", name := "Shoe", price := 100, image := "img",
         quantity := 1, variant := none } : CartItem)].find?
        (fun it => it.id = cartItemId "p1" none) =
      some { id := "p1", name := "Shoe", price := 100, image := "img",
             quantity := 1, variant := none }) ∧
    (addItemToCart [{ id := "p1", name := "Shoe", price := 100, image := "img",
                      quantity := 1, variant := none }]
        "p1" "Shoe" 100 "img" none).length = 1 ∧
    (addItemToCart [{ id := "p1", name := "Shoe", price := 100, image := "img",
                      quantity := 1, variant := none }]
        "p1" "Shoe" 100 "img" none).find?
        (fun it => it.id = cartItemId "p1" none) =
      some { id := "p1", name := "Shoe", price := 100, image := "img",
             quantity := 2, variant := none } := by
  refine ⟨addItem_uniqueness.1
    [⟨"p1", "Shoe", 100, "img", none⟩, ⟨"p1", "Shoe", 100, "img", none⟩,
     ⟨"p2", "Watch", 200, "img2", none⟩], by decide,
    (addItem_uniqueness.2 [] "p1" "Shoe" 100 "img" none).1 (by decide),
    by decide, ?_, ?_⟩
  · exact ((addItem_uniqueness.2
      [{ id := "p1", name := "Shoe", price := 100, image := "img",
         quantity := 1, variant := none }] "p1" "Shoe" 100 "img" none).2
      { id := "p1", name := "Shoe", price := 100, image := "img",
        quantity := 1, variant := none } (by decide)).1
  · have h := ((addItem_uniqueness.2
      [{ id := "p1", name := "Shoe", price := 100, image := "img",
         quantity := 1, variant := none }] "p1" "Shoe" 100 "img" none).2
      { id := "p1", name := "Shoe", price := 100, image := "img",
        quantity := 1, variant := none } (by decide)).2
    rw [h]
    decide

/-- Claim C9: an `addItemToCart` call whose computed key is already in the
cart changes only the first matching entry, and of that entry only the
quantity field (incremented by 1): the entry at the matched index `i`
keeps its id, name, price, image and variant, every other index is
untouched, and the result does not depend on the name, price and image
arguments of the call. -/
theorem addItem_frame (cart : List CartItem) (id name : String) (price : ℤ)
    (image : String) (variant : Option String) (i : ℕ)
    (hidx : jsFindIndex (fun it => it.id = cartItemId id variant) cart = some i) :
    ∃ item, cart[i]? = some item ∧ item.id = cartItemId id variant ∧
      (addItemToCart cart id name price image variant)[i]? =
        some { item with quantity := item.quantity + 1 } ∧
      (∀ j : ℕ, j ≠ i →
        (addItemToCart cart id name price image variant)[j]? = cart[j]?) ∧
      (∀ (name2 : String) (price2 : ℤ) (image2 : String),
        addItemToCart cart id name2 price2 image2 variant =
          addItemToCart cart id name price image variant) := by
  rcases updateFirst_getElem (fun it => { it with quantity := it.quantity + 1 })
    hidx with ⟨item, hget, hp, hupd, hother⟩
  have hfind : ∃ it0, cart.find? (fun x => x.id = cartItemId id variant) = some it0 := by
    rcases hf : cart.find? (fun x => x.id = cartItemId id variant) with _ | it0
    · exact absurd hp
        (by simpa using List.find?_eq_none.mp hf item (List.getElem?_mem hget))
    · exact ⟨it0, hf⟩
  rcases hfind with ⟨it0, hit0⟩
  refine ⟨item, hget, by simpa using hp, ?_, ?_, ?_⟩
  · simp only [addItemToCart, hit0]
    exact hupd
  · intro j hj
    simp only [addItemToCart, hit0]
    exact hother j hj
  · intro name2 price2 image2
    simp only [addItemToCart, hit0]

/-- Witness for C9 at a concrete input: re-adding "p1" to a two-item cart
whose first entry is keyed "p0" bumps only the "p1" entry at index 1 from
quantity 2 to 3 and leaves index 0 untouched. -/
theorem addItem_frame_witness :
    (jsFindIndex (fun it => it.id = cartItemId "p1" none)
        [({ id := "p0", name := "Hat", price := 50, image := "h",
            quantity := 4, variant := none } : CartItem),
         { id := "p1", name := "Shoe", price := 100, image := "img",
           quantity := 2, variant := none }] = some 1) ∧
    (∃ item,
      ([({ id := "p0", name := "Hat", price := 50, image := "h",
           quantity := 4, variant := none } : CartItem),
        { id := "p1", name := "Shoe", price := 100, image := "img",
          quantity := 2, variant := none }])[1]? = some item ∧
      item.id = cartItemId "p1" none ∧
      (addItemToCart
          [{ id := "p0", name := "Hat", price := 50, image := "h",
             quantity := 4, variant := none },
           { id := "p1", name := "Shoe", price := 100, image := "img",
             quantity := 2, variant := none }]
          "p1" "OtherName" 999 "otherImg" none)[1]? =
        some { item with quantity := item.quantity + 1 } ∧
      (∀ j : ℕ, j ≠ 1 →
        (addItemToCart
            [{ id := "p0", name := "Hat", price := 50, image := "h",
               quantity := 4, variant := none },
             { id := "p1", name := "Shoe", price := 100, image := "img",
               quantity := 2, variant := none }]
            "p1" "OtherName" 999 "otherImg" none)[j]? =
          ([({ id := "p0", name := "Hat", price := 50, image := "h",
               quantity := 4, variant := none } : CartItem),
            { id := "p1", name := "Shoe", price := 100, image := "img",
              quantity := 2, variant := none }])[j]?) ∧
      (∀ (name2 : String) (price2 : ℤ) (image2 : String),
        addItemToCart
            [{ id := "p0", name := "Hat", price := 50, image := "h",
               quantity := 4, variant := none },
             { id := "p1", name := "Shoe", price := 100, image := "img",
               quantity := 2, variant := none }]
            "p1" name2 price2 image2 none =
          addItemToCart
            [{ id := "p0", name := "Hat", price := 50, image := "h",
               quantity := 4, variant := none },
             { id := "p1", name := "Shoe", price := 100, image := "img",
               quantity := 2, variant := none }]
            "p1" "OtherName" 999 "otherImg" none)) :=
  ⟨by decide,
   addItem_frame
     [{ id := "p0", name := "Hat", price := 50, image := "h",
        quantity := 4, variant := none },
      { id := "p1", name := "Shoe", price := 100, image := "img",
        quantity := 2, variant := none }]
     "p1" "OtherName" 999 "otherImg" none 1 (by decide)⟩


/-- Claim C7 (counterexample): toggling "p2" twice from the empty favorites
list does not return favorited=true then favorited=false; both calls
return `undefined`, since the function body has no return statement. -/
theorem toggle_twice_no_boolean :
    (toggleFavorite [] "p2" "Watch" 200 "img2").2 = JsReturn.undefined ∧
    (toggleFavorite (toggleFavorite [] "p2" "Watch" 200 "img2").1
        "p2" "Watch" 200 "img2").2 = JsReturn.undefined ∧
    JsReturn.undefined ≠ JsReturn.boolean true ∧
    JsReturn.undefined ≠ JsReturn.boolean false :=
  ⟨rfl, rfl, by decide, by decide⟩

/-- Claim C7 (amended): under the uniqueness invariant, toggling the same
id twice restores the membership of the collection: both calls return
`undefined` (not the membership booleans the spec describes); when the id
was initially absent the first call makes it a member and the second call
restores the original collection exactly; and in every case the set of
ids after the two calls equals the initial set of ids. -/
theorem toggle_twice_membership (favs : List FavItem) (id name : String)
    (price : ℤ) (image : String)
    (hnd : (favs.map (fun x => x.id)).Nodup) :
    (toggleFavorite favs id name price image).2 = JsReturn.undefined ∧
    (toggleFavorite (toggleFavorite favs id name price image).1
        id name price image).2 = JsReturn.undefined ∧
    ((∀ x ∈ favs, x.id ≠ id) →
      (∃ y ∈ (toggleFavorite favs id name price image).1, y.id = id) ∧
      (toggleFavorite (toggleFavorite favs id name price image).1
          id name price image).1 = favs) ∧
    (∀ s, s ∈ ((toggleFavorite (toggleFavorite favs id name price image).1
        id name price image).1.map (fun x => x.id)) ↔
      s ∈ favs.map (fun x => x.id)) := by
  by_cases hany : favs.any (fun x => x.id = id) = true
  · have hf1 : (toggleFavorite favs id name price image).1 =
        removeFirst (fun x => x.id = id) favs := by
      rw [toggleFavorite_fst, if_pos hany]
    have hid1 : ∀ x ∈ removeFirst (fun x : FavItem => decide (x.id = id)) favs,
        ¬ x.id = id := removeFirst_idfree (g := fun x : FavItem => x.id) hnd
    have hany1 : ¬ ((removeFirst (fun x : FavItem => decide (x.id = id))
        favs).any (fun x => x.id = id) = true) := by
      rw [List.any_eq_true]
      rintro ⟨x, hx, hpx⟩
      exact hid1 x hx (by simpa using hpx)
    have hf2 : (toggleFavorite (toggleFavorite favs id name price image).1
        id name price image).1 =
        removeFirst (fun x : FavItem => decide (x.id = id)) favs ++
          [{ id := id, name := name, price := price, image := image }] := by
      rw [hf1, toggleFavorite_fst, if_neg hany1]
    rcases List.any_eq_true.mp hany with ⟨x0, hx0, hpx0⟩
    have hx0id : x0.id = id := by simpa using hpx0
    refine ⟨toggleFavorite_snd favs id name price image,
      toggleFavorite_snd _ id name price image,
      fun habs => absurd hx0id (habs x0 hx0), fun s => ?_⟩
    rw [hf2, List.map_append, List.map_singleton]
    constructor
    · intro hs
      rcases List.mem_append.mp hs with hs | hs
      · rcases List.mem_map.mp hs with ⟨y, hy, hys⟩
        rw [← hys]
        exact List.mem_map_of_mem _ (mem_of_mem_removeFirst hy)
      · rw [List.mem_singleton] at hs
        rw [hs]
        show id ∈ List.map (fun x => x.id) favs
        rw [← hx0id]
        exact List.mem_map_of_mem _ hx0
    · intro hs
      rcases List.mem_map.mp hs with ⟨y, hy, hys⟩
      by_cases hsid : s = id
      · exact List.mem_append_right _ (List.mem_singleton.mpr hsid)
      · refine List.mem_append_left _ ?_
        rw [← hys]
        refine List.mem_map_of_mem _ (mem_removeFirst_of_neg ?_ hy)
        rw [decide_eq_false_iff_not]
        intro hyid
        exact hsid (by rw [← hys]; exact hyid)
  · have hall : ∀ x ∈ favs, ¬ (fun x : FavItem => decide (x.id = id)) x = true :=
      fun x hx hpx => hany (List.any_eq_true.mpr ⟨x, hx, hpx⟩)
    have hf1 : (toggleFavorite favs id name price image).1 =
        favs ++ [{ id := id, name := name, price := price, image := image }] := by
      rw [toggleFavorite_fst, if_neg hany]
    have hany2 : (favs ++ [({ id := id, name := name, price := price, image := image } : FavItem)]).any (fun x => x.id = id) = true :=
      List.any_eq_true.mpr
        ⟨{ id := id, name := name, price := price, image := image },
         List.mem_append_right _ (List.mem_singleton.mpr rfl), by simp⟩
    have hf2 : (toggleFavorite (toggleFavorite favs id name price image).1
        id name price image).1 = favs := by
      rw [hf1, toggleFavorite_fst, if_pos hany2, removeFirst_append_left hall]
      simp [removeFirst]
    refine ⟨toggleFavorite_snd favs id name price image,
      toggleFavorite_snd _ id name price image,
      fun _ => ⟨⟨{ id := id, name := name, price := price, image := image },
        by rw [hf1]; exact List.mem_append_right _ (List.mem_singleton.mpr rfl),
        rfl⟩, hf2⟩,
      fun s => by rw [hf2]⟩

/-- Witness for C7 (amended) at a concrete input: a duplicate-free
two-item favorites list containing "p2"; both toggles of "p2" return
`undefined` and the id "p2" is a member of the id set after the two calls
exactly as it was before them. -/
theorem toggle_twice_membership_witness :
    (([({ id := "q", name := "N", price := 5, image := "i" } : FavItem),
       { id := "p2", name := "Watch", price := 200, image := "img2" }].map
        (fun x => x.id)).Nodup) ∧
    (toggleFavorite
        [{ id := "q", name := "N", price := 5, image := "i" },
         { id := "p2", name := "Watch", price := 200, image := "img2" }]
        "p2" "Watch" 200 "img2").2 = JsReturn.undefined ∧
    ("p2" ∈ ((toggleFavorite
        (toggleFavorite
          [{ id := "q", name := "N", price := 5, image := "i" },
           { id := "p2", name := "Watch", price := 200, image := "img2" }]
          "p2" "Watch" 200 "img2").1
        "p2" "Watch" 200 "img2").1.map (fun x => x.id)) ↔
      "p2" ∈ ([({ id := "q", name := "N", price := 5, image := "i" } : FavItem),
               { id := "p2", name := "Watch", price := 200,
                 image := "img2" }].map (fun x => x.id))) :=
  ⟨by decide,
   (toggle_twice_membership
     [{ id := "q", name := "N", price := 5, image := "i" },
      { id := "p2", name := "Watch", price := 200, image := "img2" }]
     "p2" "Watch" 200 "img2" (by decide)).1,
   (toggle_twice_membership
     [{ id := "q", name := "N", price := 5, image := "i" },
      { id := "p2", name := "Watch", price := 200, image := "img2" }]
     "p2" "Watch" 200 "img2" (by decide)).2.2.2 "p2"⟩

end Loja
